import Mathlib

/-!
# go-smsru: the gateway client of `smsru.go`

A shallow embedding of `smsru.go` (package `sms`): the status table `codeStatus`, the shared
protocol handler `makeRequest`, and the two operations `SmsSend` and `SmsStatus`.

Conventions of the embedding.

* Go `string` is `String`; `len(s)` is the UTF-8 byte size. Go's `int` is the 64-bit `int`
  and is embedded in `Int`; the only integers the code computes with come out of
  `strconv.Atoi`, which clamps to the 64-bit range, and no arithmetic is done on them.
* A Go function returning `(Response, error)` returns a pair whose second component is an
  `Option GoError` (`none` is `nil`). A run-time panic (indexing a slice out of range) is the
  `Except.error` side of `Except Panic _`.
* The library functions the code calls (`strconv.Atoi`, `strconv.Itoa`, `url.Values`,
  `time.Time`) are embedded from the Go standard library, `time.Time` with its two machine
  words `wall` and `ext` and their wrapping arithmetic; the network (`c.Http.Get`) and the
  line scanner over the response body are the environment: `HttpClient.Get` maps the requested
  URL to what the call and the scan loop produce.
-/

namespace SmsRu

/-! ## Errors, panics -/

/-- A Go `error` value made by `errors.New`, identified by its message. -/
structure GoError where
  msg : String
  deriving DecidableEq, Repr

/-- The function `errors.New`. -/
def errors_New (msg : String) : GoError := ⟨msg⟩

/-- A Go run-time panic of the kind the code can raise: a slice index out of range. -/
inductive Panic where
  | indexOutOfRange (index : Nat) (length : Nat)
  deriving DecidableEq, Repr

deriving instance DecidableEq for Except

/-- Slice indexing `xs[i]`: the element, or the run-time panic `index out of range`. -/
def index (xs : List String) (i : Nat) : Except Panic String :=
  match xs.get? i with
  | some x => .ok x
  | none => .error (.indexOutOfRange i xs.length)

/-- Go's `len(s)` of a string: its number of bytes. -/
def len (s : String) : Nat := s.utf8ByteSize

/-! ## `strconv`: `Atoi`, `Itoa` -/

/-- The two kinds of `*strconv.NumError`. -/
inductive NumError where
  | ErrSyntax
  | ErrRange
  deriving DecidableEq, Repr

/-- A decimal digit byte: `'0' <= c && c <= '9'`. -/
def isDigit (c : Char) : Bool := decide ('0' ≤ c) && decide (c ≤ '9')

/-- The value `c - '0'` of a digit byte. -/
def digitVal (c : Char) : Nat := c.toNat - '0'.toNat

/-- The constant `maxUint64`. -/
def maxUint64 : Nat := 2 ^ 64 - 1

/-- In `ParseUint`, base 10: `cutoff = maxUint64/10 + 1`, the smallest number such that
`cutoff*10 > maxUint64`. -/
def uintCutoff : Nat := maxUint64 / 10 + 1

/-- The digit loop of `strconv.ParseUint(s, 10, 64)` over the bytes still to read, with the
`uint64` accumulator `n`. A byte that is not a decimal digit ends the loop with
`(0, ErrSyntax)`; an overflow ends it at once with `(maxUint64, ErrRange)`, the bytes after it
unread. A character outside ASCII is encoded in bytes `>= 0x80`, none of them a digit, so
reading characters instead of bytes gives the same result. -/
def parseUintLoop (n : Nat) : List Char → Nat × Option NumError
  | [] => (n, none)
  | c :: cs =>
    if !isDigit c then (0, some .ErrSyntax)
    else if n ≥ uintCutoff then (maxUint64, some .ErrRange)
    else
      let n10 := (n * 10) % 2 ^ 64
      let n1 := (n10 + digitVal c) % 2 ^ 64
      if n1 < n10 ∨ n1 > maxUint64 then (maxUint64, some .ErrRange)
      else parseUintLoop n1 cs

/-- The function `strconv.ParseUint(s, 10, 64)`. -/
def ParseUint (s : List Char) : Nat × Option NumError :=
  if s = [] then (0, some .ErrSyntax) else parseUintLoop 0 s

/-- The function `strconv.ParseInt(s, 10, 0)` with a 64-bit `int`: an optional sign, then
`ParseUint`; a syntax error gives 0 and a range error gives the nearest 64-bit bound. -/
def ParseInt (s : List Char) : Int × Option NumError :=
  if s = [] then (0, some .ErrSyntax)
  else
    let neg : Bool := s.head? = some '-'
    let body := if s.head? = some '+' ∨ s.head? = some '-' then s.tail else s
    let r := ParseUint body
    if r.2 = some .ErrSyntax then (0, some .ErrSyntax)
    else
      let cutoff : Nat := 2 ^ 63
      if !neg ∧ r.1 ≥ cutoff then (((cutoff - 1 : Nat) : Int), some .ErrRange)
      else if neg ∧ r.1 > cutoff then (-(cutoff : Int), some .ErrRange)
      else (if neg then -(r.1 : Int) else (r.1 : Int), none)

/-- The digit loop of the fast path of `strconv.Atoi`: `none` at a byte that is not a digit. -/
def atoiFastLoop (n : Nat) : List Char → Option Nat
  | [] => some n
  | c :: cs => if !isDigit c then none else atoiFastLoop (n * 10 + digitVal c) cs

/-- The function `strconv.Atoi` for a 64-bit `int`: the parsed value and the error. Strings of
1 to 18 bytes take the fast path (no overflow is possible there), the others go through
`ParseInt(s, 10, 0)`. -/
def Atoi (s : String) : Int × Option NumError :=
  let sLen := len s
  if 0 < sLen ∧ sLen < 19 then
    let signed : Bool := s.data.head? = some '-' ∨ s.data.head? = some '+'
    let body := if signed then s.data.tail else s.data
    if signed ∧ body.length < 1 then (0, some .ErrSyntax)
    else
      match atoiFastLoop 0 body with
      | none => (0, some .ErrSyntax)
      | some n => (if s.data.head? = some '-' then -(n : Int) else (n : Int), none)
  else ParseInt s.data

/-- The function `strconv.Itoa` (and `strconv.FormatInt(i, 10)`, and the verb `%d`): the decimal
text of an integer, with a leading `-` when negative. -/
def Itoa (i : Int) : String :=
  match i with
  | .ofNat n => Nat.repr n
  | .negSucc n => "-" ++ Nat.repr (n + 1)

/-! ## The status table -/

/-- The entries of the map literal `codeStatus`. -/
def codeStatusTable : List (Int × String) :=
  [ (-1, "Not found"),
    (100, "Success"),
    (101, "The messege is passed to operator"),
    (102, "The message sent (in transit)"),
    (103, "The message was delivered"),
    (104, "Cannot be delivered: Time of life expired"),
    (105, "Cannot be delivered: deleted by operator"),
    (106, "Cannot be delivered: phone failure"),
    (107, "Cannot be delivered: unknown reason"),
    (108, "Cannot be delivered: rejected"),
    (130, "Cannot be delivered: Daily message limit on this number was exceeded"),
    (131, "Cannot be delivered: Same messages limit on this phone number in a minute was exceeded"),
    (132, "Cannot be delivered: Same messages limit on this phone number in a day was exceeded"),
    (200, "Wrong api_id"),
    (201, "Too low balance"),
    (202, "Wrong recipient"),
    (203, "The message has no text"),
    (204, "Sender name did not approve with administartion"),
    (205, "The message is too long (more than 8 sms)"),
    (206, "Daily message limit exceeded"),
    (207, "On this phone number (or one of them) must not send the messages, or you indicated more than 100 phone numbers"),
    (208, "Wrong time value"),
    (209, "You added this phone number (or one of them) in the stop-list"),
    (210, "You must use a POST, not a GET"),
    (211, "Method not found"),
    (212, "Text of message must be in UTF-8"),
    (220, "The service is not availiable now, try again later"),
    (230, "Daily message limit on this number was exceeded"),
    (231, "Same messages limit on this phone number in a minute was exceeded"),
    (232, "Same messages limit on this phone number in a day was exceeded"),
    (300, "Wrong token (maybe it was expired or your IP was changed)"),
    (301, "Wrong password, or user is not exist"),
    (302, "User was authorized, but account is not activate"),
    (901, "Wrong Url (should begin with 'http://')"),
    (902, "Callback is not defined") ]

/-- The map index expression `codeStatus[status]`: the entry of the key, or the zero value `""`
when the key is not in the map. -/
def codeStatus (status : Int) : String :=
  match codeStatusTable.lookup status with
  | some s => s
  | none => ""

/-! ## `net/url`: `Values` -/

/-- The type `url.Values`, a `map[string][]string`, as an association list with one entry per
key (the order of the entries is the order of insertion and carries no meaning). -/
abbrev Values := List (String × List String)

/-- The map index `v[key]`: `none` when the key is absent. -/
def Values.lookup (v : Values) (key : String) : Option (List String) :=
  match v with
  | [] => none
  | (k, xs) :: rest => if k = key then some xs else Values.lookup rest key

/-- The method `Values.Set`: `v[key] = []string{value}`. -/
def Values.Set (v : Values) (key value : String) : Values :=
  match v with
  | [] => [(key, [value])]
  | (k, xs) :: rest => if k = key then (k, [value]) :: rest else (k, xs) :: Values.Set rest key value

/-- The method `Values.Add`: `v[key] = append(v[key], value)`. -/
def Values.Add (v : Values) (key value : String) : Values :=
  match v with
  | [] => [(key, [value])]
  | (k, xs) :: rest =>
    if k = key then (k, xs ++ [value]) :: rest else (k, xs) :: Values.Add rest key value

/-- In `net/url`, `shouldEscape(c, encodeQueryComponent)`: every byte but the unreserved ones
(letters, digits, `-`, `_`, `.`, `~`) is escaped. -/
def shouldEscape (b : Nat) : Bool :=
  !((97 ≤ b && b ≤ 122) || (65 ≤ b && b ≤ 90) || (48 ≤ b && b ≤ 57)
    || b == 45 || b == 95 || b == 46 || b == 126)

/-- The hexadecimal digit `"0123456789ABCDEF"[i]`. -/
def upperhex (i : Nat) : Char := "0123456789ABCDEF".data.getD i '0'

/-- One byte of `url.QueryEscape`: a space becomes `+`, another escaped byte `%XX`. -/
def escapeByte (b : Nat) : List Char :=
  if !shouldEscape b then [Char.ofNat b]
  else if b = 32 then ['+']
  else ['%', upperhex (b / 16), upperhex (b % 16)]

/-- The function `url.QueryEscape`, over the bytes of the string. -/
def QueryEscape (s : String) : String :=
  String.mk ((s.data.flatMap String.utf8EncodeChar).flatMap fun b => escapeByte b.toNat)

/-- Go's `a < b` on strings: the lexicographic order of the bytes, which for UTF-8 is the
lexicographic order of the code points. -/
def stringLess : List Char → List Char → Bool
  | _, [] => false
  | [], _ :: _ => true
  | a :: as, b :: bs =>
    if a.toNat < b.toNat then true
    else if b.toNat < a.toNat then false
    else stringLess as bs

/-- Insertion of a key into a sorted list of keys. -/
def insertKey (k : String) : List String → List String
  | [] => [k]
  | x :: xs => if stringLess x.data k.data then x :: insertKey k xs else k :: x :: xs

/-- The call `slices.Sort(keys)` (the result, not the algorithm). -/
def sortKeys (keys : List String) : List String := keys.foldr insertKey []

/-- The method `Values.Encode`: `key=value` pairs joined by `&`, the keys sorted, keys and
values query-escaped. -/
def Values.Encode (v : Values) : String :=
  let keys := sortKeys (v.map Prod.fst)
  let pairs := keys.flatMap fun k =>
    ((Values.lookup v k).getD []).map fun x => QueryEscape k ++ "=" ++ QueryEscape x
  "&".intercalate pairs

/-! ## `time`: `Time` -/

/-- The constant `unixToInternal`: seconds from January 1, year 1 to the Unix epoch. -/
def unixToInternal : Int := 62135596800

/-- The constant `wallToInternal`: seconds from January 1, year 1 to January 1, 1885. -/
def wallToInternal : Int := 59453308800

/-- The value an `int64` sum or difference keeps: the result modulo `2^64`, in
`[-2^63, 2^63)`. -/
def wrapInt64 (x : Int) : Int := (x + 2 ^ 63) % 2 ^ 64 - 2 ^ 63

/-- A `time.Time`: the `uint64` field `wall` and the `int64` field `ext` (the location is not
read by the code). Bit 63 of `wall` is the flag `hasMonotonic`, its low 30 bits are the
nanoseconds. With the flag, bits 30 to 62 of `wall` are the seconds since 1885 and `ext` is the
monotonic clock reading; without it, `ext` is the seconds since January 1, year 1. -/
structure Time where
  wall : Nat
  ext : Int
  wall_lt : wall < 2 ^ 64
  ext_ge : -(2 ^ 63) ≤ ext
  ext_lt : ext < 2 ^ 63

/-- The test `t.wall&hasMonotonic != 0`. -/
def Time.hasMonotonic (t : Time) : Bool := decide (t.wall / 2 ^ 63 % 2 = 1)

/-- The method `nsec`: `int32(t.wall & nsecMask)`. -/
def Time.nsec (t : Time) : Nat := t.wall % 2 ^ 30

/-- The method `sec`, seconds since January 1, year 1:
`wallToInternal + int64(t.wall<<1>>(nsecShift+1))` with the flag, `t.ext` without. -/
def Time.sec (t : Time) : Int :=
  if t.hasMonotonic then wallToInternal + ((t.wall * 2 % 2 ^ 64 / 2 ^ 31 : Nat) : Int)
  else t.ext

/-- The method `unixSec`: `t.sec() + internalToUnix`, an `int64` sum. -/
def Time.unixSec (t : Time) : Int := wrapInt64 (t.sec + -unixToInternal)

/-- The method `Time.After`: when both times carry a monotonic reading the readings are
compared, otherwise the seconds since year 1 and then the nanoseconds. -/
def Time.After (t u : Time) : Bool :=
  if t.hasMonotonic && u.hasMonotonic then decide (t.ext > u.ext)
  else decide (t.sec > u.sec) || (decide (t.sec = u.sec) && decide (t.nsec > u.nsec))

/-- The method `Time.Unix`: seconds since the Unix epoch. -/
def Time.Unix (t : Time) : Int := t.unixSec

/-- The zero value `time.Time{}`: January 1, year 1, 00:00:00 UTC. -/
def Time.zero : Time := ⟨0, 0, by decide, by decide, by decide⟩

/-- A value of `time.Now()`: the wall clock at 1700000000 seconds after the Unix epoch
(4382288000 seconds after 1885), with the monotonic reading 5000000000 ns. -/
def callTime : Time :=
  ⟨2 ^ 63 + 4382288000 * 2 ^ 30, 5000000000, by decide, by decide, by decide⟩

/-! ## The data model -/

/-- A Go `map[string]string`: its entries in the order a `range` loop visits them (any order);
the keys of a map are distinct. -/
structure StringMap where
  entries : List (String × String)
  nodup : (entries.map Prod.fst).Nodup

/-- The empty (or nil) map. -/
def StringMap.empty : StringMap := ⟨[], List.nodup_nil⟩

/-- Go's `len(m)` of a map. -/
def StringMap.len (m : StringMap) : Nat := m.entries.length

/-- Modelled from the spec: the declaration of type `Sms` is not in the source file; the fields
are those `NewSms` and `SmsSend` use, typed by that use, and section 3 of the spec (Message). -/
structure Sms where
  To : String := ""
  Text : String := ""
  From : String := ""
  Multi : StringMap := StringMap.empty
  PartnerId : Int := 0
  Test : Bool := false
  Time : Time := Time.zero
  Translit : Bool := false

/-- Modelled from the spec: the declaration of type `Response` is not in the source file; the
fields are those `makeRequest`, `SmsSend` and `SmsStatus` set, and section 3 of the spec
(Response). The default is the zero value `Response{}`. -/
structure Response where
  Status : String := ""
  Id : String := ""
  Phone : String := ""
  deriving DecidableEq, Repr

/-- What `c.Http.Get(url)` followed by the scan loop over the response body produces: either the
call fails with `err`, or the loop collects `lines` and `sc.Err()` is `scErr`. -/
inductive HttpResult where
  | failed (err : GoError)
  | scanned (lines : List String) (scErr : Option GoError)
  deriving DecidableEq, Repr

/-- The transport `*http.Client`, as the environment of a call. -/
structure HttpClient where
  Get : String → HttpResult

/-- Modelled from the spec: the declaration of type `SmsRuClient` is not in the source file; the
fields are those `NewSmsRuClient` sets. -/
structure SmsRuClient where
  ApiId : String
  Http : HttpClient
  From : String

/-- The split function `bufio.ScanLines` run to the end of a body: every line ended by a
newline, then the unterminated rest when it is not empty, each without one trailing carriage
return. `cur` is the line read so far. -/
def scanLinesFrom (cur : List Char) : List Char → List String
  | [] => if cur = [] then [] else [String.mk (if cur.getLast? = some '\r' then cur.dropLast else cur)]
  | c :: cs =>
    if c = '\n' then
      String.mk (if cur.getLast? = some '\r' then cur.dropLast else cur) :: scanLinesFrom [] cs
    else scanLinesFrom (cur ++ [c]) cs

/-- The lines the scan loop of `makeRequest` collects from a response body that is read to its
end without error (no line beyond the scanner's 64 KiB token limit). -/
def bodyLines (body : String) : List String := scanLinesFrom [] body.data

/-! ## The client -/

def SMSRU_API_URL : String := "http://sms.ru"

def error_internal : GoError := errors_New "Internal Error"

def error_no_response : GoError := errors_New "Something went wrong"

/-- The constructor `NewSmsRuClient`; `http` stands for the fresh `&http.Client{}`. -/
def NewSmsRuClient (http : HttpClient) (apiId : String) (sender : String) : SmsRuClient :=
  { ApiId := apiId, Http := http, From := sender }

/-- The method `NewSms`. -/
def NewSms (c : SmsRuClient) (recipient : String) (text : String) : Sms :=
  { To := recipient, Text := text, From := c.From }

/-- The parameters `makeRequest` encodes into the URL: those it is given, with `api_id` set. -/
def requestParams (c : SmsRuClient) (params : Values) : Values :=
  Values.Set params "api_id" c.ApiId

/-- The URL `makeRequest` requests. -/
def requestUrl (c : SmsRuClient) (endpoint : String) (params : Values) : String :=
  SMSRU_API_URL ++ endpoint ++ "?" ++ Values.Encode (requestParams c params)

/-- The method `makeRequest`: the response, the lines (nil, here `[]`, with an error) and the
error. -/
def makeRequest (c : SmsRuClient) (endpoint : String) (params : Values) :
    Except Panic (Response × List String × Option GoError) :=
  match c.Http.Get (requestUrl c endpoint params) with
  | .failed err => .ok ({}, [], some err)
  | .scanned lines scErr =>
    if scErr ≠ none then .ok ({}, [], some error_internal)
    else if lines.length = 0 then .ok ({}, [], some error_no_response)
    else
      (index lines 0).bind fun line0 =>
        let status := (Atoi line0).1
        if status ≥ 200 then
          .ok ({}, [], some (errors_New ("Code: " ++ Itoa status ++ "; Status: " ++ codeStatus status)))
        else .ok ({ Status := codeStatus status }, lines, none)

/-- The parameters `SmsSend` builds before it calls `makeRequest`; `now` is `time.Now()`. -/
def sendParams (p : Sms) (now : Time) : Values :=
  let params : Values := []
  let params :=
    if p.Multi.len > 0 then
      p.Multi.entries.foldl (fun ps e => Values.Add ps ("multi[" ++ e.1 ++ "]") e.2) params
    else Values.Set (Values.Set params "to" p.To) "text" p.Text
  let params := if len p.From > 0 then Values.Set params "from" p.From else params
  let params := if p.PartnerId > 0 then Values.Set params "partner_id" (Itoa p.PartnerId) else params
  let params := if p.Test then Values.Set params "test" "1" else params
  let params := if p.Time.After now then Values.Set params "time" (Itoa p.Time.Unix) else params
  let params := if p.Translit then Values.Set params "translit" "1" else params
  params

/-- The method `SmsSend`; `now` is the value of `time.Now()` during the call. -/
def SmsSend (c : SmsRuClient) (p : Sms) (now : Time) : Except Panic (Response × Option GoError) :=
  (makeRequest c "/sms/send" (sendParams p now)).bind fun r =>
    if r.2.2 ≠ none then .ok ({}, r.2.2)
    else (index r.2.1 1).bind fun id => .ok ({ r.1 with Id := id, Phone := p.To }, none)

/-- The parameters `SmsStatus` builds before it calls `makeRequest`. -/
def statusParams (id : String) : Values := Values.Set [] "id" id

/-- The method `SmsStatus`. -/
def SmsStatus (c : SmsRuClient) (id : String) : Except Panic (Response × Option GoError) :=
  (makeRequest c "/sms/status" (statusParams id)).bind fun r =>
    if r.2.2 ≠ none then .ok ({}, r.2.2)
    else .ok ({ r.1 with Id := id }, none)

/-! ## Statement vocabulary -/

/-- The request `makeRequest c endpoint params` issues is answered: the call succeeds and the
scan loop reads `lines` from the body without error. -/
def Answered (c : SmsRuClient) (endpoint : String) (params : Values) (lines : List String) : Prop :=
  c.Http.Get (requestUrl c endpoint params) = .scanned lines none

instance (c : SmsRuClient) (endpoint : String) (params : Values) (lines : List String) :
    Decidable (Answered c endpoint params lines) :=
  inferInstanceAs (Decidable (_ = _))

/-- The error `makeRequest` builds for a status `code >= 200` with table description `desc`. -/
def codeError (code : Int) (desc : String) : GoError :=
  errors_New ("Code: " ++ Itoa code ++ "; Status: " ++ desc)

/-- A transport that answers the request of one URL with a body, read to its end, and fails
on any other URL. -/
def gatewayAt (url : String) (body : String) : HttpClient :=
  ⟨fun u => if u = url then .scanned (bodyLines body) none else .failed (errors_New "no route to host")⟩

/-- A transport that answers every request with the same body. -/
def gatewayAlways (body : String) : HttpClient :=
  ⟨fun _ => .scanned (bodyLines body) none⟩

/-- The bytes of a line after its optional sign (`+` or `-`). -/
def unsignedPart (s : String) : List Char :=
  if s.data.head? = some '+' ∨ s.data.head? = some '-' then s.data.tail else s.data

/-- A numeric line: an optional sign followed by one or more decimal digits. -/
def isNumeric (s : String) : Bool :=
  !(unsignedPart s).isEmpty && (unsignedPart s).all isDigit

/-- The decimal value of a run of digits read after the value `n`. -/
def decimalFrom (n : Nat) (ds : List Char) : Nat :=
  ds.foldl (fun a c => a * 10 + digitVal c) n

/-- The decimal value of the run of digits that starts a line, after its optional sign: the
digits before the first byte that is not a digit. -/
def leadingValue (s : String) : Nat :=
  decimalFrom 0 ((unsignedPart s).takeWhile isDigit)

/-! ## The protocol handler on an answered request -/

theorem makeRequest_answered (c : SmsRuClient) (endpoint : String) (params : Values)
    (l0 : String) (rest : List String) (h : Answered c endpoint params (l0 :: rest)) :
    makeRequest c endpoint params =
      if 200 ≤ (Atoi l0).1 then .ok ({}, [], some (codeError (Atoi l0).1 (codeStatus (Atoi l0).1)))
      else .ok ({ Status := codeStatus (Atoi l0).1 }, l0 :: rest, none) := by
  unfold Answered at h
  unfold makeRequest
  rw [h]
  simp [index, Except.bind, codeError]

theorem makeRequest_no_lines (c : SmsRuClient) (endpoint : String) (params : Values)
    (h : Answered c endpoint params []) :
    makeRequest c endpoint params = .ok ({}, [], some error_no_response) := by
  unfold Answered at h
  unfold makeRequest
  rw [h]
  simp

theorem codeStatus_of_mem : ∀ e ∈ codeStatusTable, codeStatus e.1 = e.2 := by decide

theorem codeStatus_entry (code : Int) (desc : String) (h : (code, desc) ∈ codeStatusTable) :
    codeStatus code = desc :=
  codeStatus_of_mem (code, desc) h

theorem lookup_none_of_not_mem (code : Int) (table : List (Int × String))
    (h : code ∉ table.map Prod.fst) : table.lookup code = none := by
  induction table with
  | nil => rfl
  | cons e t ih =>
    simp only [List.map_cons, List.mem_cons, not_or] at h
    have hne : (code == e.1) = false := by simpa using h.1
    simp only [List.lookup, hne]
    exact ih h.2

theorem codeStatus_unlisted (code : Int) (h : code ∉ codeStatusTable.map Prod.fst) :
    codeStatus code = "" := by
  unfold codeStatus
  rw [lookup_none_of_not_mem code codeStatusTable h]

theorem SmsStatus_answered (c : SmsRuClient) (id : String) (l0 : String) (rest : List String)
    (h : Answered c "/sms/status" (statusParams id) (l0 :: rest)) :
    SmsStatus c id =
      if 200 ≤ (Atoi l0).1 then .ok ({}, some (codeError (Atoi l0).1 (codeStatus (Atoi l0).1)))
      else .ok ({ Status := codeStatus (Atoi l0).1, Id := id }, none) := by
  unfold SmsStatus
  rw [makeRequest_answered c _ _ l0 rest h]
  split <;> simp [Except.bind]

theorem SmsSend_answered (c : SmsRuClient) (p : Sms) (now : Time) (l0 : String)
    (rest : List String) (h : Answered c "/sms/send" (sendParams p now) (l0 :: rest)) :
    SmsSend c p now =
      if 200 ≤ (Atoi l0).1 then .ok ({}, some (codeError (Atoi l0).1 (codeStatus (Atoi l0).1)))
      else
        match rest.head? with
        | some l1 => .ok ({ Status := codeStatus (Atoi l0).1, Id := l1, Phone := p.To }, none)
        | none => .error (.indexOutOfRange 1 1) := by
  unfold SmsSend
  rw [makeRequest_answered c _ _ l0 rest h]
  split
  · simp [Except.bind]
  · cases rest <;> simp [Except.bind, index]

/-! ## The claims on the response side -/

/-- The classification of a listed code. For a non-empty response whose first line parses to
a code of the status table, with table description `desc`: `makeRequest`, `SmsStatus` and
`SmsSend` return the error `"Code: <code>; Status: <desc>"` with the zero Response when
`code >= 200`; for `code < 200`, `makeRequest` returns no error, the Response with Status `desc`
and the lines, `SmsStatus` returns no error and Status `desc`, and `SmsSend` returns no error
and the Response with Status `desc` when there is a second line, and panics at `lines[1]` when
there is none. -/
theorem known_code_classification
    (c : SmsRuClient) (endpoint : String) (params : Values) (p : Sms) (now : Time) (id : String)
    (l0 : String) (rest : List String) (code : Int) (desc : String)
    (hparse : (Atoi l0).1 = code) (htable : (code, desc) ∈ codeStatusTable) :
    (Answered c endpoint params (l0 :: rest) →
      (200 ≤ code → makeRequest c endpoint params = .ok ({}, [], some (codeError code desc))) ∧
      (code < 200 → makeRequest c endpoint params = .ok ({ Status := desc }, l0 :: rest, none))) ∧
    (Answered c "/sms/status" (statusParams id) (l0 :: rest) →
      (200 ≤ code → SmsStatus c id = .ok ({}, some (codeError code desc))) ∧
      (code < 200 → SmsStatus c id = .ok ({ Status := desc, Id := id }, none))) ∧
    (Answered c "/sms/send" (sendParams p now) (l0 :: rest) →
      (200 ≤ code → SmsSend c p now = .ok ({}, some (codeError code desc))) ∧
      (code < 200 → SmsSend c p now =
        match rest.head? with
        | some l1 => .ok ({ Status := desc, Id := l1, Phone := p.To }, none)
        | none => .error (.indexOutOfRange 1 1))) ∧
    codeError code desc = ⟨"Code: " ++ Itoa code ++ "; Status: " ++ desc⟩ := by
  have hdesc : codeStatus code = desc := codeStatus_entry code desc htable
  subst hparse
  refine ⟨fun h => ?_, fun h => ?_, fun h => ?_, rfl⟩
  · rw [makeRequest_answered c _ _ l0 rest h, hdesc]
    exact ⟨fun hc => by rw [if_pos hc], fun hc => by rw [if_neg (by omega)]⟩
  · rw [SmsStatus_answered c id l0 rest h, hdesc]
    exact ⟨fun hc => by rw [if_pos hc], fun hc => by rw [if_neg (by omega)]⟩
  · rw [SmsSend_answered c p now l0 rest h, hdesc]
    exact ⟨fun hc => by rw [if_pos hc], fun hc => by rw [if_neg (by omega)]⟩

/-- The classification at the body `"201"`: the three operations return the error whose message is
`"Code: 201; Status: Too low balance"`, which contains `"201"` and `"Too low balance"`. -/
theorem known_code_classification_at_201 :
    (Atoi "201").1 = 201 ∧ ((201 : Int), "Too low balance") ∈ codeStatusTable ∧
    makeRequest (NewSmsRuClient (gatewayAlways "201") "KEY" "") "/sms/send" [] =
      .ok ({}, [], some ⟨"Code: 201; Status: Too low balance"⟩) ∧
    SmsStatus (NewSmsRuClient (gatewayAlways "201") "KEY" "") "SM123" =
      .ok ({}, some ⟨"Code: 201; Status: Too low balance"⟩) ∧
    SmsSend (NewSmsRuClient (gatewayAlways "201") "KEY" "") { To := "79990000000", Text := "Hello" }
        callTime = .ok ({}, some ⟨"Code: 201; Status: Too low balance"⟩) ∧
    "201".data <:+: "Code: 201; Status: Too low balance".data ∧
    "Too low balance".data <:+: "Code: 201; Status: Too low balance".data :=
  have h := known_code_classification (NewSmsRuClient (gatewayAlways "201") "KEY" "")
    "/sms/send" [] { To := "79990000000", Text := "Hello" } callTime "SM123" "201" [] 201
    "Too low balance" (by decide) (by decide)
  ⟨by decide, by decide, ((h.1 (by decide)).1 (by decide)).trans (by decide),
    ((h.2.1 (by decide)).1 (by decide)).trans (by decide),
    ((h.2.2.1 (by decide)).1 (by decide)).trans (by decide), by decide, by decide⟩

/-- C1, the code at the listed code 100 and the one-line body `"100"`: `makeRequest` and
`SmsStatus` return no error and the Status `"Success"` of the table, but `SmsSend` returns
neither `(Response, nil)` with that Status nor an error: it stops on the run-time panic of
`lines[1]`, index 1 out of range for a slice of length 1. -/
theorem C1_send_faults_at_listed_code_100 :
    ((100 : Int), "Success") ∈ codeStatusTable ∧ (Atoi "100").1 = 100 ∧
    bodyLines "100" = ["100"] ∧
    makeRequest (NewSmsRuClient (gatewayAlways "100") "KEY" "shop") "/sms/send"
        (sendParams { To := "79990000000", Text := "Hello", From := "shop" } callTime) =
      .ok ({ Status := "Success" }, ["100"], none) ∧
    SmsStatus (NewSmsRuClient (gatewayAlways "100") "KEY" "shop") "SM123" =
      .ok ({ Status := "Success", Id := "SM123" }, none) ∧
    SmsSend (NewSmsRuClient (gatewayAlways "100") "KEY" "shop")
        { To := "79990000000", Text := "Hello", From := "shop" } callTime =
      .error (.indexOutOfRange 1 1) := by
  decide

/-- C2. When the send request is answered with at least two lines and the first parses to a
code below 200, `SmsSend` returns no error and the Response whose Status is the table
description of the code, whose Id is the second line and whose Phone is the message's `To`,
for any message (batch or not). -/
theorem C2_send_success_response
    (c : SmsRuClient) (p : Sms) (now : Time) (l0 l1 : String) (rest : List String)
    (hans : Answered c "/sms/send" (sendParams p now) (l0 :: l1 :: rest))
    (hcode : (Atoi l0).1 < 200) :
    SmsSend c p now = .ok ({ Status := codeStatus (Atoi l0).1, Id := l1, Phone := p.To }, none) := by
  rw [SmsSend_answered c p now l0 (l1 :: rest) hans, if_neg (by omega)]
  rfl

/-- C2, at the body `"100\nSM123"`: Status `"Success"`, Id `"SM123"`, Phone the recipient. -/
theorem C2_send_success_response_witness :
    Answered (NewSmsRuClient
        (gatewayAt "http://sms.ru/sms/send?api_id=KEY&text=Hello&to=79990000000" "100\nSM123")
        "KEY" "") "/sms/send"
      (sendParams { To := "79990000000", Text := "Hello" } callTime) ["100", "SM123"] ∧
    (Atoi "100").1 < 200 ∧
    SmsSend (NewSmsRuClient
        (gatewayAt "http://sms.ru/sms/send?api_id=KEY&text=Hello&to=79990000000" "100\nSM123")
        "KEY" "") { To := "79990000000", Text := "Hello" } callTime =
      .ok ({ Status := "Success", Id := "SM123", Phone := "79990000000" }, none) :=
  ⟨by decide, by decide,
    (C2_send_success_response _ { To := "79990000000", Text := "Hello" } callTime
      "100" "SM123" [] (by decide) (by decide)).trans (by decide)⟩

/-- C3, the code at the body `"100"` (a success code and no second line): `SmsSend` neither
returns a Response nor an error, it stops on the run-time panic of `lines[1]`, index 1 out of
range for a slice of length 1. -/
theorem C3_send_faults_on_one_line_success :
    Answered (NewSmsRuClient
        (gatewayAt "http://sms.ru/sms/send?api_id=KEY&text=Hello&to=79990000000" "100")
        "KEY" "") "/sms/send"
      (sendParams { To := "79990000000", Text := "Hello" } callTime) ["100"] ∧
    SmsSend (NewSmsRuClient
        (gatewayAt "http://sms.ru/sms/send?api_id=KEY&text=Hello&to=79990000000" "100")
        "KEY" "") { To := "79990000000", Text := "Hello" } callTime =
      .error (.indexOutOfRange 1 1) := by
  decide

/-- The fault of `SmsSend` in general: an answered send request with a single line whose code
is below 200 ends in the panic of `lines[1]`. -/
theorem SmsSend_one_line_success_faults (c : SmsRuClient) (p : Sms) (now : Time) (l0 : String)
    (hans : Answered c "/sms/send" (sendParams p now) [l0]) (hcode : (Atoi l0).1 < 200) :
    SmsSend c p now = .error (.indexOutOfRange 1 1) := by
  rw [SmsSend_answered c p now l0 [] hans, if_neg (by omega)]
  rfl

/-- The only fault of `SmsSend`: it panics only on an answered request with exactly one line
whose code is below 200, and then at `lines[1]`. -/
theorem SmsSend_fault_only_one_line_success (c : SmsRuClient) (p : Sms) (now : Time) (e : Panic)
    (h : SmsSend c p now = .error e) :
    ∃ l0, Answered c "/sms/send" (sendParams p now) [l0] ∧ (Atoi l0).1 < 200 ∧
      e = .indexOutOfRange 1 1 := by
  cases hget : c.Http.Get (requestUrl c "/sms/send" (sendParams p now)) with
  | failed err =>
    simp [SmsSend, makeRequest, hget, Except.bind] at h
  | scanned lines scErr =>
    cases scErr with
    | some err => simp [SmsSend, makeRequest, hget, Except.bind] at h
    | none =>
      cases lines with
      | nil => simp [SmsSend, makeRequest, hget, Except.bind] at h
      | cons l0 rest =>
        rw [SmsSend_answered c p now l0 rest hget] at h
        by_cases hc : 200 ≤ (Atoi l0).1
        · rw [if_pos hc] at h
          cases h
        · rw [if_neg hc] at h
          cases rest with
          | nil =>
            refine ⟨l0, hget, by omega, ?_⟩
            simp only [List.head?_nil, Except.error.injEq] at h
            exact h.symm
          | cons l1 tl => simp at h

/-- C4. A request answered with zero lines: `makeRequest`, `SmsSend` and `SmsStatus` return the
zero Response and the error `error_no_response`, whose message is `"Something went wrong"`;
no slice is indexed. -/
theorem C4_empty_response
    (c : SmsRuClient) (endpoint : String) (params : Values) (p : Sms) (now : Time) (id : String) :
    (Answered c endpoint params [] →
      makeRequest c endpoint params = .ok ({}, [], some error_no_response)) ∧
    (Answered c "/sms/send" (sendParams p now) [] →
      SmsSend c p now = .ok ({}, some error_no_response)) ∧
    (Answered c "/sms/status" (statusParams id) [] →
      SmsStatus c id = .ok ({}, some error_no_response)) ∧
    error_no_response = ⟨"Something went wrong"⟩ := by
  refine ⟨fun h => makeRequest_no_lines c _ _ h, fun h => ?_, fun h => ?_, rfl⟩
  · unfold SmsSend
    rw [makeRequest_no_lines c _ _ h]
    simp [Except.bind]
  · unfold SmsStatus
    rw [makeRequest_no_lines c _ _ h]
    simp [Except.bind]

/-- C4, at the empty body. -/
theorem C4_empty_response_witness :
    bodyLines "" = [] ∧
    SmsSend (NewSmsRuClient (gatewayAlways "") "KEY" "") { To := "79990000000", Text := "Hello" }
        callTime = .ok ({}, some ⟨"Something went wrong"⟩) ∧
    SmsStatus (NewSmsRuClient (gatewayAlways "") "KEY" "") "SM123" =
      .ok ({}, some ⟨"Something went wrong"⟩) :=
  have h := C4_empty_response (NewSmsRuClient (gatewayAlways "") "KEY" "") "/sms/send" []
    { To := "79990000000", Text := "Hello" } callTime "SM123"
  ⟨by decide, h.2.1 (by decide), h.2.2.1 (by decide)⟩

/-- C8. `SmsStatus` requests `"/sms/status"` with exactly the parameters `id=<id>` and
`api_id=<ApiId>`; when that request is answered with any non-empty response whose first line
parses to a code below 200 (one line is enough), it returns no error and the Response with the
table description as Status, the input id as Id and the empty Phone. -/
theorem C8_status_query
    (c : SmsRuClient) (id : String) (l0 : String) (rest : List String)
    (hans : Answered c "/sms/status" (statusParams id) (l0 :: rest))
    (hcode : (Atoi l0).1 < 200) :
    requestParams c (statusParams id) = [("id", [id]), ("api_id", [c.ApiId])] ∧
    requestUrl c "/sms/status" (statusParams id) =
      "http://sms.ru" ++ "/sms/status" ++ "?" ++
        Values.Encode [("id", [id]), ("api_id", [c.ApiId])] ∧
    SmsStatus c id = .ok ({ Status := codeStatus (Atoi l0).1, Id := id, Phone := "" }, none) := by
  have hp : requestParams c (statusParams id) = [("id", [id]), ("api_id", [c.ApiId])] := by
    simp [requestParams, statusParams, Values.Set]
  refine ⟨hp, ?_, ?_⟩
  · unfold requestUrl
    rw [hp]
    rfl
  · rw [SmsStatus_answered c id l0 rest hans, if_neg (by omega)]

/-- C8, at the one-line body `"103"` for the id `"SM123"`. -/
theorem C8_status_query_witness :
    Answered (NewSmsRuClient (gatewayAt "http://sms.ru/sms/status?api_id=KEY&id=SM123" "103")
        "KEY" "") "/sms/status" (statusParams "SM123") ["103"] ∧
    (Atoi "103").1 < 200 ∧
    SmsStatus (NewSmsRuClient (gatewayAt "http://sms.ru/sms/status?api_id=KEY&id=SM123" "103")
        "KEY" "") "SM123" =
      .ok ({ Status := "The message was delivered", Id := "SM123", Phone := "" }, none) :=
  ⟨by decide, by decide,
    (C8_status_query _ "SM123" "103" [] (by decide) (by decide)).2.2.trans (by decide)⟩

/-- C9. For a code that is not a key of the status table the description looked up is the
empty string; a non-empty response whose first line parses to such a code makes `makeRequest`
return the error `"Code: <code>; Status: "` when the code is at least 200, and the Response
with the empty Status, the lines and no error when it is below 200. -/
theorem C9_unlisted_code
    (code : Int) (hnot : code ∉ codeStatusTable.map Prod.fst) :
    codeStatus code = "" ∧
    ∀ (c : SmsRuClient) (endpoint : String) (params : Values) (l0 : String) (rest : List String),
      (Atoi l0).1 = code → Answered c endpoint params (l0 :: rest) →
      (200 ≤ code → makeRequest c endpoint params =
        .ok ({}, [], some ⟨"Code: " ++ Itoa code ++ "; Status: " ++ ""⟩)) ∧
      (code < 200 → makeRequest c endpoint params = .ok ({ Status := "" }, l0 :: rest, none)) := by
  have hdesc : codeStatus code = "" := codeStatus_unlisted code hnot
  refine ⟨hdesc, fun c endpoint params l0 rest hparse h => ?_⟩
  subst hparse
  rw [makeRequest_answered c _ _ l0 rest h, hdesc]
  exact ⟨fun hc => by rw [if_pos hc]; rfl, fun hc => by rw [if_neg (by omega)]⟩

/-- C9, at the unlisted code 999 (body `"999"`): the error message is `"Code: 999; Status: "`. -/
theorem C9_unlisted_code_witness :
    (999 : Int) ∉ codeStatusTable.map Prod.fst ∧ codeStatus 999 = "" ∧
    makeRequest (NewSmsRuClient (gatewayAlways "999") "KEY" "") "/sms/status" (statusParams "SM123") =
      .ok ({}, [], some ⟨"Code: 999; Status: "⟩) :=
  have h := C9_unlisted_code 999 (by decide)
  ⟨by decide, h.1,
    ((h.2 (NewSmsRuClient (gatewayAlways "999") "KEY" "") "/sms/status" (statusParams "SM123")
      "999" [] (by decide) (by decide)).1 (by decide)).trans (by decide)⟩


theorem lookup_Set (v : Values) (k x k' : String) :
    Values.lookup (Values.Set v k x) k' = if k = k' then some [x] else Values.lookup v k' := by
  induction v with
  | nil => simp [Values.Set, Values.lookup]
  | cons e rest ih =>
    obtain ⟨k0, xs⟩ := e
    by_cases h0 : k0 = k
    · subst h0
      by_cases h1 : k0 = k' <;> simp [Values.Set, Values.lookup, h1]
    · by_cases h1 : k0 = k'
      · subst h1
        have : ¬ k = k0 := fun h => h0 h.symm
        simp [Values.Set, Values.lookup, h0, this]
      · simp [Values.Set, Values.lookup, h0, h1, ih]

theorem lookup_Add (v : Values) (k x k' : String) :
    Values.lookup (Values.Add v k x) k' =
      if k = k' then some ((Values.lookup v k).getD [] ++ [x]) else Values.lookup v k' := by
  induction v with
  | nil => simp [Values.Add, Values.lookup]
  | cons e rest ih =>
    obtain ⟨k0, xs⟩ := e
    by_cases h0 : k0 = k
    · subst h0
      by_cases h1 : k0 = k' <;> simp [Values.Add, Values.lookup, h1]
    · by_cases h1 : k0 = k'
      · subst h1
        have : ¬ k = k0 := fun h => h0 h.symm
        simp [Values.Add, Values.lookup, h0, this]
      · simp [Values.Add, Values.lookup, h0, h1, ih]

theorem multiKey_data (a : String) :
    ("multi[" ++ a ++ "]").data = 'm' :: 'u' :: 'l' :: 't' :: 'i' :: '[' :: (a.data ++ [']']) := by
  simp [String.data_append]

theorem multiKey_ne (a k : String) (hk : k.data.head? ≠ some 'm') : "multi[" ++ a ++ "]" ≠ k := by
  intro h
  apply hk
  rw [← h, multiKey_data]
  rfl

theorem multiKey_inj (a b : String) (h : "multi[" ++ a ++ "]" = "multi[" ++ b ++ "]") : a = b := by
  have hd := congrArg String.data h
  rw [multiKey_data, multiKey_data] at hd
  simp only [List.cons.injEq, true_and] at hd
  have := List.append_cancel_right hd
  exact String.ext this

theorem len_pos_iff (s : String) : 0 < len s ↔ s ≠ "" := by
  obtain ⟨d⟩ := s
  cases d with
  | nil => simp [len, String.utf8ByteSize, String.utf8ByteSize.go]
  | cons c cs =>
    have hpos := Char.utf8Size_pos c
    have hne : (⟨c :: cs⟩ : String) ≠ "" := by
      intro h
      have := congrArg String.data h
      simp at this
    simp only [len, String.utf8ByteSize, String.utf8ByteSize.go, ne_eq, hne, not_false_eq_true,
      iff_true]
    omega

theorem lookup_foldl_other (es : List (String × String)) (v : Values) (k : String)
    (hk : k.data.head? ≠ some 'm') :
    Values.lookup (es.foldl (fun ps e => Values.Add ps ("multi[" ++ e.1 ++ "]") e.2) v) k =
      Values.lookup v k := by
  induction es generalizing v with
  | nil => rfl
  | cons e es ih =>
    rw [List.foldl_cons, ih, lookup_Add, if_neg (multiKey_ne e.1 k hk)]

theorem lookup_foldl_absent (es : List (String × String)) (v : Values) (phone : String)
    (habs : phone ∉ es.map Prod.fst) :
    Values.lookup (es.foldl (fun ps e => Values.Add ps ("multi[" ++ e.1 ++ "]") e.2) v)
      ("multi[" ++ phone ++ "]") = Values.lookup v ("multi[" ++ phone ++ "]") := by
  induction es generalizing v with
  | nil => rfl
  | cons e es ih =>
    simp only [List.map_cons, List.mem_cons, not_or] at habs
    rw [List.foldl_cons, ih _ habs.2, lookup_Add,
      if_neg (fun h => habs.1 (multiKey_inj e.1 phone h).symm)]

theorem lookup_foldl_entry (es : List (String × String)) (v : Values) (phone text : String)
    (hnodup : (es.map Prod.fst).Nodup) (hmem : (phone, text) ∈ es) :
    Values.lookup (es.foldl (fun ps e => Values.Add ps ("multi[" ++ e.1 ++ "]") e.2) v)
      ("multi[" ++ phone ++ "]") =
      some ((Values.lookup v ("multi[" ++ phone ++ "]")).getD [] ++ [text]) := by
  induction es generalizing v with
  | nil => simp at hmem
  | cons e es ih =>
    simp only [List.map_cons, List.nodup_cons] at hnodup
    rw [List.foldl_cons]
    rcases List.mem_cons.mp hmem with heq | htail
    · subst heq
      rw [lookup_foldl_absent es _ phone hnodup.1, lookup_Add, if_pos rfl]
    · have hne : e.1 ≠ phone := by
        intro h
        apply hnodup.1
        rw [h]
        exact List.mem_map.mpr ⟨(phone, text), htail, rfl⟩
      rw [ih _ hnodup.2 htail, lookup_Add, if_neg (fun h => hne (multiKey_inj e.1 phone h))]

theorem lookup_ite_Set_ne (b : Prop) [Decidable b] (v : Values) (k x k' : String) (h : k ≠ k') :
    Values.lookup (if b then Values.Set v k x else v) k' = Values.lookup v k' := by
  split_ifs
  · rw [lookup_Set, if_neg h]
  · rfl

/-- The optional parameters of `SmsSend` leave the other keys as the first step built them. -/
theorem lookup_sendParams (c : SmsRuClient) (p : Sms) (now : Time) (k : String)
    (h1 : "from" ≠ k) (h2 : "partner_id" ≠ k) (h3 : "test" ≠ k) (h4 : "time" ≠ k)
    (h5 : "translit" ≠ k) (h6 : "api_id" ≠ k) :
    Values.lookup (requestParams c (sendParams p now)) k =
      Values.lookup
        (if p.Multi.len > 0 then
          p.Multi.entries.foldl (fun ps e => Values.Add ps ("multi[" ++ e.1 ++ "]") e.2) []
        else Values.Set (Values.Set [] "to" p.To) "text" p.Text) k := by
  unfold requestParams sendParams
  rw [lookup_Set, if_neg h6, lookup_ite_Set_ne _ _ _ _ _ h5, lookup_ite_Set_ne _ _ _ _ _ h4,
    lookup_ite_Set_ne _ _ _ _ _ h3, lookup_ite_Set_ne _ _ _ _ _ h2,
    lookup_ite_Set_ne _ _ _ _ _ h1]

/-- C5. A message with an empty batch mapping, an empty sender, a partner id that is not
positive, both flags unset and a scheduled time that is not after the call time is sent with
exactly the three parameters `to`, `text` and `api_id`, each with its single value, and these
are what the requested URL of `"/sms/send"` encodes. -/
theorem C5_single_recipient_params
    (c : SmsRuClient) (p : Sms) (now : Time)
    (hmulti : p.Multi.len = 0) (hfrom : p.From = "") (hpartner : p.PartnerId ≤ 0)
    (htest : p.Test = false) (htranslit : p.Translit = false)
    (htime : p.Time.After now = false) :
    requestParams c (sendParams p now) =
      [("to", [p.To]), ("text", [p.Text]), ("api_id", [c.ApiId])] ∧
    requestUrl c "/sms/send" (sendParams p now) =
      "http://sms.ru" ++ "/sms/send" ++ "?" ++
        Values.Encode [("to", [p.To]), ("text", [p.Text]), ("api_id", [c.ApiId])] := by
  have hlen : ¬ 0 < len p.From := by rw [len_pos_iff]; simp [hfrom]
  have hp : requestParams c (sendParams p now) =
      [("to", [p.To]), ("text", [p.Text]), ("api_id", [c.ApiId])] := by
    unfold requestParams sendParams
    simp [hmulti, hlen, not_lt.mpr hpartner, htest, htranslit, htime, Values.Set]
  refine ⟨hp, ?_⟩
  unfold requestUrl
  rw [hp]
  rfl

/-- C5, at To `"79990000000"` and Text `"Hello"`. -/
theorem C5_single_recipient_params_witness :
    requestParams (NewSmsRuClient (gatewayAlways "100\nSM123") "KEY" "")
        (sendParams { To := "79990000000", Text := "Hello" } callTime) =
      [("to", ["79990000000"]), ("text", ["Hello"]), ("api_id", ["KEY"])] ∧
    requestUrl (NewSmsRuClient (gatewayAlways "100\nSM123") "KEY" "") "/sms/send"
        (sendParams { To := "79990000000", Text := "Hello" } callTime) =
      "http://sms.ru/sms/send?api_id=KEY&text=Hello&to=79990000000" :=
  have h := C5_single_recipient_params (NewSmsRuClient (gatewayAlways "100\nSM123") "KEY" "")
    { To := "79990000000", Text := "Hello" } callTime
    (by decide) (by decide) (by decide) (by decide) (by decide) (by decide)
  ⟨h.1, h.2.trans (by decide)⟩

/-- C6. A message with a non-empty batch mapping is sent with, for every entry (phone, text)
of the mapping, the key `multi[<phone>]` holding exactly the single value `text`, and with
neither the key `to` nor the key `text`, whatever its To and Text fields hold. -/
theorem C6_batch_params
    (c : SmsRuClient) (p : Sms) (now : Time) (hbatch : 0 < p.Multi.len) :
    (∀ phone text, (phone, text) ∈ p.Multi.entries →
      Values.lookup (requestParams c (sendParams p now)) ("multi[" ++ phone ++ "]") =
        some [text]) ∧
    Values.lookup (requestParams c (sendParams p now)) "to" = none ∧
    Values.lookup (requestParams c (sendParams p now)) "text" = none := by
  refine ⟨fun phone text hmem => ?_, ?_, ?_⟩
  · rw [lookup_sendParams c p now _
      (fun h => multiKey_ne phone "from" (by decide) h.symm)
      (fun h => multiKey_ne phone "partner_id" (by decide) h.symm)
      (fun h => multiKey_ne phone "test" (by decide) h.symm)
      (fun h => multiKey_ne phone "time" (by decide) h.symm)
      (fun h => multiKey_ne phone "translit" (by decide) h.symm)
      (fun h => multiKey_ne phone "api_id" (by decide) h.symm),
      if_pos hbatch, lookup_foldl_entry _ _ phone text p.Multi.nodup hmem]
    rfl
  · rw [lookup_sendParams c p now "to" (by decide) (by decide) (by decide) (by decide)
      (by decide) (by decide), if_pos hbatch, lookup_foldl_other _ _ _ (by decide)]
    rfl
  · rw [lookup_sendParams c p now "text" (by decide) (by decide) (by decide) (by decide)
      (by decide) (by decide), if_pos hbatch, lookup_foldl_other _ _ _ (by decide)]
    rfl

/-- C6, at the mapping `111 -> A`, `222 -> B` with To and Text also set: the parameters hold
`multi[111]=A` and `multi[222]=B` and neither `to` nor `text`. -/
theorem C6_batch_params_witness :
    Values.lookup (requestParams (NewSmsRuClient (gatewayAlways "100\nSM123") "KEY" "")
        (sendParams { To := "79990000000", Text := "Hello",
                      Multi := ⟨[("111", "A"), ("222", "B")], by decide⟩ } callTime))
      "multi[111]" = some ["A"] ∧
    Values.lookup (requestParams (NewSmsRuClient (gatewayAlways "100\nSM123") "KEY" "")
        (sendParams { To := "79990000000", Text := "Hello",
                      Multi := ⟨[("111", "A"), ("222", "B")], by decide⟩ } callTime))
      "multi[222]" = some ["B"] ∧
    Values.lookup (requestParams (NewSmsRuClient (gatewayAlways "100\nSM123") "KEY" "")
        (sendParams { To := "79990000000", Text := "Hello",
                      Multi := ⟨[("111", "A"), ("222", "B")], by decide⟩ } callTime))
      "to" = none ∧
    Values.lookup (requestParams (NewSmsRuClient (gatewayAlways "100\nSM123") "KEY" "")
        (sendParams { To := "79990000000", Text := "Hello",
                      Multi := ⟨[("111", "A"), ("222", "B")], by decide⟩ } callTime))
      "text" = none :=
  have h := C6_batch_params (NewSmsRuClient (gatewayAlways "100\nSM123") "KEY" "")
    { To := "79990000000", Text := "Hello",
      Multi := ⟨[("111", "A"), ("222", "B")], by decide⟩ } callTime (by decide)
  ⟨h.1 "111" "A" (by decide), h.1 "222" "B" (by decide), h.2.1, h.2.2⟩

theorem atoiFastLoop_non_digit (l : List Char) (n : Nat) (h : l.all isDigit = false) :
    atoiFastLoop n l = none := by
  induction l generalizing n with
  | nil => simp at h
  | cons c cs ih =>
    unfold atoiFastLoop
    by_cases hc : isDigit c = true
    · have hcs : cs.all isDigit = false := by
        simpa [List.all_cons, hc] using h
      simp only [hc, Bool.not_true, Bool.false_eq_true, if_false]
      exact ih _ hcs
    · simp [hc]

theorem le_decimalFrom (ds : List Char) (n : Nat) : n ≤ decimalFrom n ds := by
  induction ds generalizing n with
  | nil => exact Nat.le_refl n
  | cons c cs ih =>
    have := ih (n * 10 + digitVal c)
    simp only [decimalFrom, List.foldl_cons] at this ⊢
    omega

theorem parseUintLoop_non_digit (l : List Char) (n : Nat) (h : l.all isDigit = false)
    (hval : decimalFrom n (l.takeWhile isDigit) ≤ maxUint64) :
    parseUintLoop n l = (0, some .ErrSyntax) := by
  induction l generalizing n with
  | nil => simp at h
  | cons c cs ih =>
    unfold parseUintLoop
    by_cases hc : isDigit c = true
    · have hcs : cs.all isDigit = false := by
        simpa [List.all_cons, hc] using h
      have hv : decimalFrom (n * 10 + digitVal c) (cs.takeWhile isDigit) ≤ maxUint64 := by
        simpa [List.takeWhile_cons, hc, decimalFrom] using hval
      have hle := le_decimalFrom (cs.takeWhile isDigit) (n * 10 + digitVal c)
      have hmax : maxUint64 = 18446744073709551615 := by decide
      have hcut : uintCutoff = 1844674407370955162 := by decide
      have hpow : (2 : Nat) ^ 64 = 18446744073709551616 := by decide
      have hn : ¬ n ≥ uintCutoff := by omega
      have h10 : (n * 10) % 2 ^ 64 = n * 10 := Nat.mod_eq_of_lt (by omega)
      have h1 : (n * 10 + digitVal c) % 2 ^ 64 = n * 10 + digitVal c :=
        Nat.mod_eq_of_lt (by omega)
      simp only [hc, Bool.not_true, Bool.false_eq_true, if_false, hn, h10, h1]
      rw [if_neg (by omega)]
      exact ih _ hcs hv
    · simp [hc]

theorem Atoi_non_numeric (s : String) (hnon : isNumeric s = false)
    (hval : leadingValue s ≤ maxUint64) : Atoi s = (0, some .ErrSyntax) := by
  have hcases : unsignedPart s = [] ∨ (unsignedPart s).all isDigit = false := by
    unfold isNumeric at hnon
    cases hu : unsignedPart s with
    | nil => exact Or.inl rfl
    | cons a t => rw [hu] at hnon; right; simpa using hnon
  have hsign : (s.data.head? = some '-' ∨ s.data.head? = some '+') ↔
      (s.data.head? = some '+' ∨ s.data.head? = some '-') := Or.comm
  unfold Atoi
  by_cases hfast : 0 < len s ∧ len s < 19
  · simp only [hfast, and_self, if_true]
    by_cases hs : s.data.head? = some '+' ∨ s.data.head? = some '-'
    · have hu : unsignedPart s = s.data.tail := by simp [unsignedPart, hs]
      simp only [hsign, hs, decide_True, if_true]
      rw [← hu]
      rcases hcases with hnil | hall
      · simp [hnil]
      · rw [atoiFastLoop_non_digit _ _ hall]
        split <;> rfl
    · have hu : unsignedPart s = s.data := by simp [unsignedPart, hs]
      simp only [hsign, hs, decide_False, Bool.false_eq_true, if_false, false_and]
      rw [← hu]
      rcases hcases with hnil | hall
      · exfalso
        have hne : s ≠ "" := (len_pos_iff s).mp hfast.1
        apply hne
        apply String.ext
        rw [← hu, hnil]
      · rw [atoiFastLoop_non_digit _ _ hall]
  · simp only [hfast, if_false]
    unfold ParseInt
    by_cases hd : s.data = []
    · simp [hd]
    · simp only [hd, if_false]
      have hu : (if s.data.head? = some '+' ∨ s.data.head? = some '-' then s.data.tail
          else s.data) = unsignedPart s := rfl
      rw [hu]
      have hr : ParseUint (unsignedPart s) = (0, some .ErrSyntax) := by
        unfold ParseUint
        rcases hcases with hnil | hall
        · simp [hnil]
        · have hne : unsignedPart s ≠ [] := by
            intro h0
            rw [h0] at hall
            simp at hall
          rw [if_neg hne]
          exact parseUintLoop_non_digit _ 0 hall hval
      simp [hr]

/-- C10, as stated, fails: the first line `"18446744073709551616x"` is not numeric, yet
`strconv.Atoi` reads its digits up to the overflow of `uint64`, stops there with a range
error and the value `9223372036854775807`, and `makeRequest` returns the error of a code
`>= 200` instead of a success. -/
theorem C10_counterexample_overflow_before_non_digit :
    isNumeric "18446744073709551616x" = false ∧
    Atoi "18446744073709551616x" = (9223372036854775807, some .ErrRange) ∧
    makeRequest (NewSmsRuClient (gatewayAlways "18446744073709551616x\nSM123") "KEY" "")
        "/sms/status" (statusParams "SM123") =
      .ok ({}, [], some ⟨"Code: 9223372036854775807; Status: "⟩) := by
  decide

/-- C10, amended. For a non-empty response whose first line is not numeric and whose leading
run of digits (after the optional sign, before the first byte that is not a digit) has a value
of at most `2^64 - 1`: `strconv.Atoi` gives 0 with a syntax error, the error is ignored, and
`makeRequest` returns no error, the Response with the empty Status (0 is not in the table) and
all the response lines. -/
theorem C10_non_numeric_first_line
    (c : SmsRuClient) (endpoint : String) (params : Values) (l0 : String) (rest : List String)
    (hnon : isNumeric l0 = false) (hval : leadingValue l0 ≤ 2 ^ 64 - 1)
    (hans : Answered c endpoint params (l0 :: rest)) :
    Atoi l0 = (0, some .ErrSyntax) ∧ codeStatus 0 = "" ∧
    makeRequest c endpoint params = .ok ({ Status := "" }, l0 :: rest, none) := by
  have hatoi : Atoi l0 = (0, some .ErrSyntax) := Atoi_non_numeric l0 hnon hval
  have h0 : codeStatus 0 = "" := by decide
  refine ⟨hatoi, h0, ?_⟩
  rw [makeRequest_answered c _ _ l0 rest hans, hatoi]
  simp [h0]

/-- C10 amended, at the first lines `"ERROR"` and `"18446744073709551615x"`. -/
theorem C10_non_numeric_first_line_witness :
    isNumeric "ERROR" = false ∧ leadingValue "ERROR" ≤ 2 ^ 64 - 1 ∧
    makeRequest (NewSmsRuClient (gatewayAlways "ERROR\nnot found") "KEY" "")
        "/sms/status" (statusParams "SM123") =
      .ok ({ Status := "" }, ["ERROR", "not found"], none) ∧
    isNumeric "18446744073709551615x" = false ∧
    leadingValue "18446744073709551615x" ≤ 2 ^ 64 - 1 ∧
    Atoi "18446744073709551615x" = (0, some .ErrSyntax) :=
  ⟨by decide, by decide,
    (C10_non_numeric_first_line (NewSmsRuClient (gatewayAlways "ERROR\nnot found") "KEY" "")
      "/sms/status" (statusParams "SM123") "ERROR" ["not found"]
      (by decide) (by decide) (by decide)).2.2,
    by decide, by decide,
    (C10_non_numeric_first_line (NewSmsRuClient (gatewayAlways "18446744073709551615x") "KEY" "")
      "/sms/status" (statusParams "SM123") "18446744073709551615x" []
      (by decide) (by decide) (by decide)).1⟩

end SmsRu
